import Mathlib

/-!
Shallow embedding of the Secure RPC Gateway (tangle-network/blockchain-rpc-blueprint):
the firewall access-control engine (`src/blockchain-rpc-lib/src/firewall.rs`), the
job handlers (`src/blockchain-rpc-lib/src/jobs/`), and the URI computations of the
reverse proxy (`src/blockchain-rpc-lib/src/rpc.rs`), together with theorems settling
the correctness claims about them.

Modelling conventions:
- Timestamps (`chrono::DateTime<Utc>`) are integers counting milliseconds since the
  epoch; the model treats datetime addition as total (the real type aborts outside
  of roughly year ±262000, far from every input considered here), while
  `chrono::Duration::seconds` keeps its real partiality (it aborts outside
  ±(i64::MAX / 1000) seconds), modelled as `Option`.
- `HashSet` is a list queried only through membership; insertion appends when absent.
- `HashMap` is an association list; insertion removes the key first, lookup takes
  the first hit, removal drops every hit.
- Webhook emission (`Firewall::notify_webhook`) is recorded as the list of events
  passed to it, in call order; the HTTP fan-out itself is I/O outside the model.
- `url::Url` is a record of its components; `Display` of networks and accounts is
  injective, so events carry the value itself instead of its rendered string.
-/

namespace SecureRpc

/-- Model of `sp_core::crypto::AccountId32`: an opaque 32-byte identifier compared bytewise. -/
structure AccountId32 where
  bytes : List Nat
deriving DecidableEq, Repr

/-- Model of `std::net::IpAddr`: an IPv4 (< 2^32) or IPv6 (< 2^128) address as a number. -/
inductive IpAddr
  | v4 (addr : Nat)
  | v6 (addr : Nat)
deriving DecidableEq, Repr

/-- Model of `ipnetwork::IpNetwork`: an address with a CIDR prefix length (≤ 32 resp. ≤ 128). -/
inductive IpNetwork
  | v4 (addr : Nat) (prefixLen : Nat)
  | v6 (addr : Nat) (prefixLen : Nat)
deriving DecidableEq, Repr

/-- Model of `IpNetwork::contains`: prefix match, comparing the addresses with the host bits
masked off (division by `2 ^ hostBits` is the right shift); families never mix. -/
def IpNetwork.contains : IpNetwork → IpAddr → Bool
  | .v4 net p, .v4 ip => decide (net / 2 ^ (32 - p) = ip / 2 ^ (32 - p))
  | .v6 net p, .v6 ip => decide (net / 2 ^ (128 - p) = ip / 2 ^ (128 - p))
  | _, _ => false

/-- Model of `context.rs`: `TemporaryAccessRecord { granted_at, expires_at }`, UTC instants. -/
structure TemporaryAccessRecord where
  granted_at : Int
  expires_at : Int
deriving DecidableEq, Repr

/-- Model of `url::Url` reduced to the components the gateway reads. -/
structure UrlModel where
  scheme : String
  host : Option String
  port : Option Nat
  path : String
  query : Option String
deriving DecidableEq, Repr

/-- The `source` string of a webhook event: the rendering of an IP or of an account
(both renderings are injective, so the value itself stands for its string). -/
inductive EventSource
  | ip (a : IpAddr)
  | account (a : AccountId32)
deriving DecidableEq, Repr

/-- The `value` string of a `RuleAdded` event. -/
inductive RuleValue
  | ip (n : IpNetwork)
  | account (a : AccountId32)
deriving DecidableEq, Repr

/-- Model of `firewall.rs`: `enum WebhookEvent`. -/
inductive WebhookEvent
  | accessGranted (source : EventSource) (access_type : String)
  | accessDenied (source : EventSource)
  | temporaryAccessExpired (account : AccountId32)
  | ruleAdded (rule_type : String) (value : RuleValue)
  | webhookRegistered (url : UrlModel)
deriving DecidableEq, Repr

/-- Model of `error.rs`: the `Error` variants reachable in the modelled handlers. -/
inductive GatewayError
  | invalidJobInput (msg : String)
deriving DecidableEq, Repr

/-- Model of `firewall.rs`: `struct Firewall` (the `http_client` handle carries no state). -/
structure Firewall where
  allow_ips_config : List IpNetwork
  allow_accounts_config : List AccountId32
  allow_unrestricted_access : Bool
  allow_ips_dynamic : List IpNetwork
  allow_accounts_dynamic : List AccountId32
  temporary_access : List (AccountId32 × TemporaryAccessRecord)
  webhooks : List UrlModel
deriving DecidableEq, Repr

/-- Model of `HashMap::get` on the association-list model. -/
def mapLookup (m : List (AccountId32 × TemporaryAccessRecord)) (a : AccountId32) :
    Option TemporaryAccessRecord :=
  (m.find? (fun e => decide (e.1 = a))).map (fun e => e.2)

/-- Model of `HashMap::remove` on the association-list model. -/
def mapRemove (m : List (AccountId32 × TemporaryAccessRecord)) (a : AccountId32) :
    List (AccountId32 × TemporaryAccessRecord) :=
  m.filter (fun e => !decide (e.1 = a))

/-- Model of `HashMap::insert` on the association-list model: replaces any entry at the key. -/
def mapInsert (m : List (AccountId32 × TemporaryAccessRecord)) (a : AccountId32)
    (r : TemporaryAccessRecord) : List (AccountId32 × TemporaryAccessRecord) :=
  mapRemove m a ++ [(a, r)]

/-- Model of `Firewall::is_allowed` (IP check): unrestricted, then the static prefixes, then
the dynamic prefixes, emitting one event per call; the temporary map plays no part.
Returns the boolean and the events handed to `notify_webhook`. -/
def isAllowed (fw : Firewall) (ip : IpAddr) : Bool × List WebhookEvent :=
  if fw.allow_unrestricted_access then
    (true, [.accessGranted (.ip ip) "Unrestricted"])
  else if fw.allow_ips_config.any (fun net => net.contains ip) then
    (true, [.accessGranted (.ip ip) "Permanent (Config)"])
  else if fw.allow_ips_dynamic.any (fun net => net.contains ip) then
    (true, [.accessGranted (.ip ip) "Permanent (Dynamic)"])
  else
    (false, [.accessDenied (.ip ip)])

/-- Model of `Firewall::check_temporary_access` at instant `now` (the `Utc::now()` of the
call): a live record answers true; an expired one is removed and announced. -/
def checkTemporaryAccess (fw : Firewall) (account : AccountId32) (now : Int) :
    Bool × Firewall × List WebhookEvent :=
  match mapLookup fw.temporary_access account with
  | some record =>
    if now < record.expires_at then
      (true, fw, [])
    else
      (false, { fw with temporary_access := mapRemove fw.temporary_access account },
        [.temporaryAccessExpired account])
  | none => (false, fw, [])

/-- Model of `Firewall::is_account_allowed` at instant `now`: unrestricted, static accounts,
dynamic accounts, then the temporary lookup; a denial emits nothing of its own. -/
def isAccountAllowed (fw : Firewall) (account : AccountId32) (now : Int) :
    Bool × Firewall × List WebhookEvent :=
  if fw.allow_unrestricted_access then
    (true, fw, [.accessGranted (.account account) "Unrestricted"])
  else if fw.allow_accounts_config.contains account then
    (true, fw, [.accessGranted (.account account) "Permanent (Config)"])
  else if fw.allow_accounts_dynamic.contains account then
    (true, fw, [.accessGranted (.account account) "Permanent (Dynamic)"])
  else
    match checkTemporaryAccess fw account now with
    | (true, fw2, evs) => (true, fw2, evs ++ [.accessGranted (.account account) "Temporary"])
    | (false, fw2, evs) => (false, fw2, evs)

/-- Model of `Firewall::add_ip_rule`: `HashSet::insert`, announcing only a fresh insertion. -/
def addIpRule (fw : Firewall) (n : IpNetwork) : Firewall × List WebhookEvent :=
  if fw.allow_ips_dynamic.contains n then
    (fw, [])
  else
    ({ fw with allow_ips_dynamic := fw.allow_ips_dynamic ++ [n] },
      [.ruleAdded "IP" (.ip n)])

/-- Model of `Firewall::add_account_rule`: the account analogue of `addIpRule`. -/
def addAccountRule (fw : Firewall) (a : AccountId32) : Firewall × List WebhookEvent :=
  if fw.allow_accounts_dynamic.contains a then
    (fw, [])
  else
    ({ fw with allow_accounts_dynamic := fw.allow_accounts_dynamic ++ [a] },
      [.ruleAdded "Account" (.account a)])

/-- Model of `Firewall::grant_temporary_access`: inserts or overwrites unconditionally and
returns `Ok(())`; the source performs no validation and emits no event. -/
def grantTemporaryAccess (fw : Firewall) (account : AccountId32)
    (record : TemporaryAccessRecord) : Except GatewayError Firewall :=
  .ok { fw with temporary_access := mapInsert fw.temporary_access account record }

/-- Model of `Firewall::cleanup_expired_access` at instant `now`: collects the keys of the
entries with `expires_at ≤ now`, then removes each; no event is emitted. -/
def cleanupExpiredAccess (fw : Firewall) (now : Int) : Firewall × List WebhookEvent :=
  let expired := (fw.temporary_access.filter
    (fun e => decide (e.2.expires_at ≤ now))).map (fun e => e.1)
  ({ fw with temporary_access :=
      expired.foldl (fun m a => mapRemove m a) fw.temporary_access }, [])

/-- Model of `Firewall::add_webhook`: appends and announces the registration. -/
def addWebhook (fw : Firewall) (url : UrlModel) : Firewall × List WebhookEvent :=
  ({ fw with webhooks := fw.webhooks ++ [url] }, [.webhookRegistered url])

/-! ## Job handlers (`src/blockchain-rpc-lib/src/jobs/`) -/

/-- The `as i64` cast of a `u64` value: two's-complement reinterpretation. -/
def i64OfU64 (n : Nat) : Int :=
  if n < 2 ^ 63 then (n : Int) else (n : Int) - 2 ^ 64

/-- The largest whole-second magnitude `chrono::Duration` can hold
(`i64::MAX` milliseconds, truncated to seconds). -/
def chronoMaxSecs : Int := 9223372036854775

/-- Model of `chrono::Duration::seconds`: aborts (`None`) outside `±chronoMaxSecs`. -/
def chronoDurationSeconds (secs : Int) : Option Int :=
  if -chronoMaxSecs ≤ secs ∧ secs ≤ chronoMaxSecs then some secs else none

/-- Outcome of a job handler run: a result, a returned error, or an abort
inside the handler (an arithmetic panic in the source). -/
inductive JobOutcome
  | ok (fw : Firewall)
  | err (e : GatewayError)
  | panic
deriving DecidableEq, Repr

/-- Model of `jobs/pay_for_access.rs::handler` with the call's `Utc::now()` passed as `now`
(milliseconds): requires a caller and a positive duration, builds the record with
`expires_at = now + Duration::seconds(duration_secs as i64)` and grants it. -/
def payForAccess (fw : Firewall) (caller : Option AccountId32) (duration_secs : Nat)
    (now : Int) : JobOutcome :=
  match caller with
  | none => .err (.invalidJobInput "Job caller information missing")
  | some account =>
    if duration_secs = 0 then
      .err (.invalidJobInput "Duration must be positive")
    else
      match chronoDurationSeconds (i64OfU64 duration_secs) with
      | none => .panic
      | some secs =>
        let expires_at := now + secs * 1000
        let record : TemporaryAccessRecord := { granted_at := now, expires_at := expires_at }
        match grantTemporaryAccess fw account record with
        | .ok fw2 => .ok fw2
        | .error e => .err e

/-- Model of `jobs/register_webhook.rs::handler`, parameterised by `url::Url::parse`
(`.error e` carries the parse error's rendering): a parse failure or a scheme other
than http/https returns `InvalidJobInput` before the firewall is touched; otherwise
`Firewall::add_webhook` runs and its state and events are returned. -/
def registerWebhook (parseUrl : String → Except String UrlModel) (fw : Firewall)
    (input : String) : Except GatewayError (Firewall × List WebhookEvent) :=
  match parseUrl input with
  | .error e => .error (.invalidJobInput ("Invalid URL: " ++ e))
  | .ok url =>
    if url.scheme ≠ "http" ∧ url.scheme ≠ "https" then
      .error (.invalidJobInput "Webhook URL must use http or https scheme")
    else
      .ok (addWebhook fw url)

/-! ## Reverse proxy URI computations (`src/blockchain-rpc-lib/src/rpc.rs`) -/

/-- Model of `url::Url::port_or_known_default`: the explicit port, else the scheme's
registered default. -/
def knownDefaultPort (scheme : String) : Option Nat :=
  if scheme = "http" then some 80
  else if scheme = "https" then some 443
  else if scheme = "ws" then some 80
  else if scheme = "wss" then some 443
  else if scheme = "ftp" then some 21
  else none

def portOrKnownDefault (u : UrlModel) : Option Nat :=
  match u.port with
  | some p => some p
  | none => knownDefaultPort u.scheme

/-- Model of `handle_websocket`: the host of the backend TCP connection,
`proxy_url.host_str().unwrap_or("localhost")`. -/
def backendTargetHost (proxyUrl : UrlModel) : String :=
  proxyUrl.host.getD "localhost"

/-- Model of `handle_websocket`: the port of the backend TCP connection,
`proxy_url.port_or_known_default().unwrap_or(80)`. -/
def backendTargetPort (proxyUrl : UrlModel) : Nat :=
  (portOrKnownDefault proxyUrl).getD 80

/-- Model of `handle_websocket`: the URL given to the backend handshake,
`format!("{}://{}{}", ws_scheme, host, proxy_url.path())` — a URL whose text names
no port and no query. -/
def backendWsUrl (proxyUrl : UrlModel) : UrlModel :=
  { scheme := if proxyUrl.scheme = "https" ∨ proxyUrl.scheme = "wss" then "wss" else "ws"
    host := some (backendTargetHost proxyUrl)
    port := none
    path := proxyUrl.path
    query := none }

/-- Model of `str::trim_end_matches('/')`: drops every trailing slash. -/
def trimEndSlashes (s : String) : String :=
  ⟨(s.data.reverse.dropWhile (fun c => c = '/')).reverse⟩

/-- What `proxy_http_request` does up to the decision point the claims are about. -/
inductive ProxyOutcome
  | badRequest
  | backendRequest (uri : String)
deriving DecidableEq, Repr

/-- Model of `proxy_http_request`, parameterised by `Uri::try_from` validity: the target is
the proxy URL's text with trailing slashes trimmed, then the request's
path-and-query (defaulting to "/"); a parse failure answers 400 at once, a success
sends the request upstream at that URI. -/
def proxyHttpRequest (parseUri : String → Bool) (proxyUrlStr : String)
    (pathAndQuery : Option String) : ProxyOutcome :=
  let target := trimEndSlashes proxyUrlStr ++ pathAndQuery.getD "/"
  if parseUri target then .backendRequest target else .badRequest

/-! ## Concrete fixtures for witnesses and counterexamples -/

/-- A sample account (only byte equality matters to the model). -/
def acctA : AccountId32 := ⟨[1]⟩

/-- A second, distinct sample account. -/
def acctB : AccountId32 := ⟨[2]⟩

/-- The network 10.0.0.0/8. -/
def netP : IpNetwork := .v4 167772160 8

/-- A firewall with every list empty and unrestricted access off. -/
def emptyFirewall : Firewall :=
  { allow_ips_config := []
    allow_accounts_config := []
    allow_unrestricted_access := false
    allow_ips_dynamic := []
    allow_accounts_dynamic := []
    temporary_access := []
    webhooks := [] }

/-- A firewall whose dynamic IP set already holds `netP`. -/
def fwWithNetP : Firewall := { emptyFirewall with allow_ips_dynamic := [netP] }

/-- A firewall whose only grant is a temporary record for `acctA`, expiring at 2000. -/
def fwTempA : Firewall :=
  { emptyFirewall with
      temporary_access := [(acctA, { granted_at := 0, expires_at := 2000 })] }

/-- A firewall holding two temporary records, expiring at 1000 and at 2000. -/
def fwTwoTemps : Firewall :=
  { emptyFirewall with
      temporary_access := [(acctA, { granted_at := 0, expires_at := 1000 }),
        (acctB, { granted_at := 0, expires_at := 2000 })] }

/-- The configured backend URL `http://backend:9944` as the `url` crate parses it. -/
def proxyEx : UrlModel :=
  { scheme := "http", host := some "backend", port := some 9944, path := "/",
    query := none }

/-- A valid webhook destination, `https://x.test/h`, as parsed. -/
def urlHttpsEx : UrlModel :=
  { scheme := "https", host := some "x.test", port := none, path := "/h",
    query := none }

/-- An `ftp`-scheme URL, as parsed. -/
def urlFtpEx : UrlModel :=
  { scheme := "ftp", host := some "x", port := none, path := "", query := none }

/-- A sample `Url::parse` behaviour: accepts the two URLs above, rejects the rest. -/
def parseUrlEx : String → Except String UrlModel := fun s =>
  if s = "https://x.test/h" then .ok urlHttpsEx
  else if s = "ftp://x" then .ok urlFtpEx
  else .error "relative URL without a base"

/-! ## Helper lemmas on the map model -/

theorem mapLookup_mapInsert_self (m : List (AccountId32 × TemporaryAccessRecord))
    (a : AccountId32) (r : TemporaryAccessRecord) :
    mapLookup (mapInsert m a r) a = some r := by
  unfold mapLookup mapInsert mapRemove
  induction m with
  | nil => simp
  | cons e m ih =>
    by_cases h : e.1 = a
    · simp [h]
    · simp [List.filter_cons, h]

theorem mapLookup_mapRemove_self (m : List (AccountId32 × TemporaryAccessRecord))
    (a : AccountId32) :
    mapLookup (mapRemove m a) a = none := by
  unfold mapLookup mapRemove
  induction m with
  | nil => simp
  | cons e m ih =>
    by_cases h : e.1 = a
    · simp [List.filter_cons, h]
    · simp [List.filter_cons, h]

/-! ## Theorems -/

/-- C1 — refuted by the code: `pay_for_access` with `duration_secs = u64::MAX`
(which is `> 0`, so it passes the handler's positivity check) wraps to `-1` under
the `as i64` cast, and the handler inserts a record whose `expires_at` is one
second **before** the insertion instant `now = 0`, violating invariant I-Temp. -/
theorem c1_pay_for_access_overflow :
    payForAccess emptyFirewall (some acctA) (2 ^ 64 - 1) 0 =
      .ok { emptyFirewall with
        temporary_access := [(acctA, { granted_at := 0, expires_at := -1000 })] } ∧
    ¬ ((0 : Int) < -1000) := by
  constructor
  · decide
  · decide

/-- C2 — counterexample: a record with `expires_at ≤ granted_at` is accepted, not
rejected: `grant_temporary_access` returns `Ok` and the temporary map gains the
entry, where the claim demands an `InvalidInput` error and an unchanged map. -/
theorem c2_grant_no_validation_counterexample :
    grantTemporaryAccess emptyFirewall acctA { granted_at := 5000, expires_at := 5000 } =
      .ok { emptyFirewall with
        temporary_access := [(acctA, { granted_at := 5000, expires_at := 5000 })] } ∧
    [(acctA, ({ granted_at := 5000, expires_at := 5000 } : TemporaryAccessRecord))] ≠
      emptyFirewall.temporary_access := by
  exact ⟨rfl, by decide⟩

/-- C2 amended: `grant_temporary_access` performs no validation: for every record,
also one with `expires_at ≤ granted_at`, it succeeds and inserts (or overwrites)
the entry for that account, leaving every other field unchanged. -/
theorem c2_grant_always_inserts (fw : Firewall) (a : AccountId32)
    (r : TemporaryAccessRecord) :
    grantTemporaryAccess fw a r =
      .ok { fw with temporary_access := mapInsert fw.temporary_access a r } ∧
    mapLookup (mapInsert fw.temporary_access a r) a = some r := by
  exact ⟨rfl, mapLookup_mapInsert_self fw.temporary_access a r⟩

/-- C3: `is_allowed` answers the disjunction unrestricted ∨ static hit ∨
dynamic hit, checked in that order; the temporary map is never consulted (the
result is invariant under replacing it); and exactly one event is emitted — on a
miss an `AccessDenied` for the IP, on a hit an `AccessGranted` naming the first
tier that matched. -/
theorem c3_is_ip_allowed_spec (fw : Firewall) (ip : IpAddr) :
    (isAllowed fw ip).1 = (fw.allow_unrestricted_access
        || fw.allow_ips_config.any (fun net => net.contains ip)
        || fw.allow_ips_dynamic.any (fun net => net.contains ip)) ∧
    (∀ t, isAllowed { fw with temporary_access := t } ip = isAllowed fw ip) ∧
    (isAllowed fw ip).2.length = 1 ∧
    (isAllowed fw ip).2 =
      (if fw.allow_unrestricted_access then
        [WebhookEvent.accessGranted (.ip ip) "Unrestricted"]
      else if fw.allow_ips_config.any (fun net => net.contains ip) then
        [WebhookEvent.accessGranted (.ip ip) "Permanent (Config)"]
      else if fw.allow_ips_dynamic.any (fun net => net.contains ip) then
        [WebhookEvent.accessGranted (.ip ip) "Permanent (Dynamic)"]
      else
        [WebhookEvent.accessDenied (.ip ip)]) := by
  refine ⟨?_, fun t => rfl, ?_, ?_⟩ <;> unfold isAllowed <;>
    repeat' split <;> simp_all

/-- C7 — counterexample: from a state whose dynamic IP set already holds the
prefix, `add_ip_rule` twice emits **zero** `RuleAdded` events in total, not the
exactly one the claim demands of every starting state. -/
theorem c7_double_add_counterexample :
    (addIpRule fwWithNetP netP).2 ++ (addIpRule (addIpRule fwWithNetP netP).1 netP).2 =
      ([] : List WebhookEvent) ∧
    (addIpRule fwWithNetP netP).1 = fwWithNetP := by
  exact ⟨rfl, rfl⟩

/-- C7 amended: `add_ip_rule(p)` twice yields the same state as once and the second
call emits nothing; the total emission is exactly one `RuleAdded{rule_type="IP",
value=p}` event when `p` was not already in the dynamic set, and none when it was. -/
theorem c7_add_ip_rule_idempotent (fw : Firewall) (p : IpNetwork) :
    (addIpRule (addIpRule fw p).1 p).1 = (addIpRule fw p).1 ∧
    (addIpRule (addIpRule fw p).1 p).2 = [] ∧
    (addIpRule fw p).2 ++ (addIpRule (addIpRule fw p).1 p).2 =
      (if fw.allow_ips_dynamic.contains p then []
       else [WebhookEvent.ruleAdded "IP" (.ip p)]) := by
  by_cases h : fw.allow_ips_dynamic.contains p <;>
    simp_all [addIpRule, List.contains]

/-- C4: an account covered only by a temporary record answers true before the
record expires with the state untouched; at or after expiry the same call answers
false, removes the record, and emits exactly one `TemporaryAccessExpired` event,
and every later call on the resulting state answers false emitting nothing. -/
theorem c4_temporary_expiry (fw : Firewall) (a : AccountId32)
    (r : TemporaryAccessRecord)
    (hu : fw.allow_unrestricted_access = false)
    (hs : a ∉ fw.allow_accounts_config)
    (hd : a ∉ fw.allow_accounts_dynamic)
    (ht : mapLookup fw.temporary_access a = some r) :
    (∀ t, t < r.expires_at →
      isAccountAllowed fw a t =
        (true, fw, [.accessGranted (.account a) "Temporary"])) ∧
    (∀ t, r.expires_at ≤ t →
      isAccountAllowed fw a t =
        (false, { fw with temporary_access := mapRemove fw.temporary_access a },
          [.temporaryAccessExpired a]) ∧
      mapLookup (mapRemove fw.temporary_access a) a = none ∧
      (∀ u, isAccountAllowed
          { fw with temporary_access := mapRemove fw.temporary_access a } a u =
        (false, { fw with temporary_access := mapRemove fw.temporary_access a },
          []))) := by
  have hnone := mapLookup_mapRemove_self fw.temporary_access a
  constructor
  · intro t htl
    simp [isAccountAllowed, checkTemporaryAccess, hu, hs, hd, ht, htl]
  · intro t htg
    have hnl : ¬ t < r.expires_at := not_lt.mpr htg
    refine ⟨?_, hnone, ?_⟩
    · simp [isAccountAllowed, checkTemporaryAccess, hu, hs, hd, ht, hnl]
    · intro u
      simp [isAccountAllowed, checkTemporaryAccess, hu, hs, hd, hnone]

/-- Witness for C4 at a concrete firewall holding one record expiring at 2000:
a check at 1000 grants and keeps the record, a check at 2000 denies, removes it,
and emits the expiry event, and a further check at 3000 denies silently. -/
theorem c4_temporary_expiry_witness :
    isAccountAllowed fwTempA acctA 1000 =
      (true, fwTempA, [.accessGranted (.account acctA) "Temporary"]) ∧
    isAccountAllowed fwTempA acctA 2000 =
      (false, { fwTempA with temporary_access := mapRemove fwTempA.temporary_access acctA },
        [.temporaryAccessExpired acctA]) ∧
    isAccountAllowed
        { fwTempA with temporary_access := mapRemove fwTempA.temporary_access acctA }
        acctA 3000 =
      (false, { fwTempA with temporary_access := mapRemove fwTempA.temporary_access acctA },
        []) := by
  have h := c4_temporary_expiry fwTempA acctA { granted_at := 0, expires_at := 2000 }
    rfl (by decide) (by decide) (by decide)
  exact ⟨h.1 1000 (by decide), (h.2 2000 (by decide)).1, (h.2 2000 (by decide)).2.2 3000⟩

/-- C10: an account matching no tier at all — unrestricted off, absent from both
account sets and from the temporary map — is denied at every instant with no
webhook event and an unchanged firewall state. -/
theorem c10_account_denied_silent (fw : Firewall) (a : AccountId32)
    (hu : fw.allow_unrestricted_access = false)
    (hs : a ∉ fw.allow_accounts_config)
    (hd : a ∉ fw.allow_accounts_dynamic)
    (ht : mapLookup fw.temporary_access a = none) :
    ∀ now, isAccountAllowed fw a now = (false, fw, []) := by
  intro now
  simp [isAccountAllowed, checkTemporaryAccess, hu, hs, hd, ht]

/-- Witness for C10: on the empty firewall, a fresh account is denied silently. -/
theorem c10_account_denied_silent_witness :
    isAccountAllowed emptyFirewall acctB 42 = (false, emptyFirewall, []) :=
  c10_account_denied_silent emptyFirewall acctB rfl (by decide) (by decide) rfl 42

theorem foldl_mapRemove_eq_filter (ks : List AccountId32)
    (m : List (AccountId32 × TemporaryAccessRecord)) :
    ks.foldl (fun acc a => mapRemove acc a) m =
      m.filter (fun e => decide (e.1 ∉ ks)) := by
  induction ks generalizing m with
  | nil => simp
  | cons k ks ih =>
    simp only [List.foldl_cons]
    rw [ih, mapRemove, List.filter_filter]
    refine List.filter_congr ?_
    intro e _
    by_cases h1 : e.1 = k <;> by_cases h2 : e.1 ∈ ks <;> simp [h1, h2]

/-- C8: the sweep at instant `now` keeps exactly the temporary entries with
`expires_at > now` (removing every expired one, leaving live ones unchanged),
touches no other firewall field, and emits no webhook event. The hypothesis is
the `HashMap` key-uniqueness invariant of the association-list model. -/
theorem c8_cleanup_expired (fw : Firewall) (now : Int)
    (h : (fw.temporary_access.map Prod.fst).Nodup) :
    (cleanupExpiredAccess fw now).1.temporary_access =
      fw.temporary_access.filter (fun e => decide (now < e.2.expires_at)) ∧
    (cleanupExpiredAccess fw now).2 = [] ∧
    (cleanupExpiredAccess fw now).1.allow_ips_config = fw.allow_ips_config ∧
    (cleanupExpiredAccess fw now).1.allow_accounts_config = fw.allow_accounts_config ∧
    (cleanupExpiredAccess fw now).1.allow_unrestricted_access =
      fw.allow_unrestricted_access ∧
    (cleanupExpiredAccess fw now).1.allow_ips_dynamic = fw.allow_ips_dynamic ∧
    (cleanupExpiredAccess fw now).1.allow_accounts_dynamic =
      fw.allow_accounts_dynamic ∧
    (cleanupExpiredAccess fw now).1.webhooks = fw.webhooks := by
  refine ⟨?_, rfl, rfl, rfl, rfl, rfl, rfl, rfl⟩
  show ((fw.temporary_access.filter
      (fun e => decide (e.2.expires_at ≤ now))).map (fun e => e.1)).foldl
        (fun m a => mapRemove m a) fw.temporary_access = _
  rw [foldl_mapRemove_eq_filter]
  refine List.filter_congr ?_
  intro e he
  by_cases hexp : e.2.expires_at ≤ now
  · have hmem : e.1 ∈ (fw.temporary_access.filter
        (fun x => decide (x.2.expires_at ≤ now))).map (fun x => x.1) :=
      List.mem_map.mpr ⟨e, List.mem_filter.mpr ⟨he, by simpa using hexp⟩, rfl⟩
    simp [hmem, not_lt.mpr hexp]
  · have hnmem : e.1 ∉ (fw.temporary_access.filter
        (fun x => decide (x.2.expires_at ≤ now))).map (fun x => x.1) := by
      intro hc
      rcases List.mem_map.mp hc with ⟨e2, he2, hfst⟩
      have he2m := List.mem_filter.mp he2
      have : e2 = e := List.inj_on_of_nodup_map h he2m.1 he hfst
      rw [this] at he2m
      exact hexp (by simpa using he2m.2)
    simp [hnmem, lt_of_not_ge hexp]

/-- Witness for C8 on a two-entry map: sweeping at 1500 removes the entry expiring
at 1000 and keeps the one expiring at 2000, with no event. -/
theorem c8_cleanup_expired_witness :
    (cleanupExpiredAccess fwTwoTemps 1500).1.temporary_access =
      fwTwoTemps.temporary_access.filter (fun e => decide ((1500 : Int) < e.2.expires_at)) ∧
    (cleanupExpiredAccess fwTwoTemps 1500).2 = ([] : List WebhookEvent) :=
  ⟨(c8_cleanup_expired fwTwoTemps 1500 (by decide)).1,
    (c8_cleanup_expired fwTwoTemps 1500 (by decide)).2.1⟩

/-- C5 — counterexample: for `proxy_to_url = http://backend:9944` the URL handed to
the backend WebSocket handshake is `ws://backend/` — it names no port, so its
effective port is the `ws` default 80, not the explicit 9944 the claim requires
(only the separate TCP connection targets 9944). -/
theorem c5_ws_url_port_counterexample :
    proxyEx.port = some 9944 ∧
    (backendWsUrl proxyEx).port = none ∧
    portOrKnownDefault (backendWsUrl proxyEx) = some 80 ∧
    backendTargetPort proxyEx = 9944 ∧
    (80 : Nat) ≠ 9944 := by
  refine ⟨rfl, rfl, rfl, rfl, by decide⟩

/-- C5 amended: the handshake URL's scheme is `wss` exactly when the proxy scheme
is https or wss (else `ws`); its host is the proxy URL's host, its path the proxy
URL's path; it carries no query — and **no port**: the backend port (explicit port,
else the scheme's known default, else 80) is used only for the TCP connection. -/
theorem c5_backend_ws_url (u : UrlModel) (hst : String) (h : u.host = some hst) :
    (backendWsUrl u).scheme =
      (if u.scheme = "https" ∨ u.scheme = "wss" then "wss" else "ws") ∧
    (backendWsUrl u).host = some hst ∧
    (backendWsUrl u).port = none ∧
    (backendWsUrl u).path = u.path ∧
    (backendWsUrl u).query = none ∧
    backendTargetPort u = (portOrKnownDefault u).getD 80 := by
  simp [backendWsUrl, backendTargetHost, backendTargetPort, h]

/-- Witness for C5 at the configured backend `http://backend:9944`. -/
theorem c5_backend_ws_url_witness :
    (backendWsUrl proxyEx).scheme =
      (if proxyEx.scheme = "https" ∨ proxyEx.scheme = "wss" then "wss" else "ws") ∧
    (backendWsUrl proxyEx).host = some "backend" ∧
    (backendWsUrl proxyEx).port = none ∧
    (backendWsUrl proxyEx).path = proxyEx.path ∧
    (backendWsUrl proxyEx).query = none ∧
    backendTargetPort proxyEx = (portOrKnownDefault proxyEx).getD 80 :=
  c5_backend_ws_url proxyEx "backend" rfl

/-- C6: `register_webhook` returns `InvalidJobInput` when the URL fails to parse or
parses with a scheme other than http/https — in the model the firewall is only
read after both checks pass, so the state (in particular the webhook list) is
untouched on the error paths — and on an http/https URL it succeeds, appending the
URL to the webhook list (and announcing the registration). -/
theorem c6_register_webhook_validation (parseUrl : String → Except String UrlModel)
    (fw : Firewall) (s : String) :
    (∀ e, parseUrl s = .error e →
      registerWebhook parseUrl fw s =
        .error (.invalidJobInput ("Invalid URL: " ++ e))) ∧
    (∀ u, parseUrl s = .ok u → u.scheme ≠ "http" → u.scheme ≠ "https" →
      registerWebhook parseUrl fw s =
        .error (.invalidJobInput "Webhook URL must use http or https scheme")) ∧
    (∀ u, parseUrl s = .ok u → (u.scheme = "http" ∨ u.scheme = "https") →
      registerWebhook parseUrl fw s =
        .ok ({ fw with webhooks := fw.webhooks ++ [u] },
          [.webhookRegistered u])) := by
  refine ⟨?_, ?_, ?_⟩
  · intro e he
    simp [registerWebhook, he]
  · intro u hu h1 h2
    simp [registerWebhook, hu, h1, h2, addWebhook]
  · intro u hu h
    rcases h with h | h <;> simp [registerWebhook, hu, h, addWebhook]

/-- Witness for C6: under `parseUrlEx`, an https URL is appended, an ftp URL and an
unparseable string are rejected. -/
theorem c6_register_webhook_validation_witness :
    registerWebhook parseUrlEx emptyFirewall "https://x.test/h" =
      .ok ({ emptyFirewall with webhooks := emptyFirewall.webhooks ++ [urlHttpsEx] },
        [.webhookRegistered urlHttpsEx]) ∧
    registerWebhook parseUrlEx emptyFirewall "ftp://x" =
      .error (.invalidJobInput "Webhook URL must use http or https scheme") ∧
    registerWebhook parseUrlEx emptyFirewall "not a url" =
      .error (.invalidJobInput ("Invalid URL: " ++ "relative URL without a base")) :=
  ⟨(c6_register_webhook_validation parseUrlEx emptyFirewall "https://x.test/h").2.2
      urlHttpsEx rfl (Or.inr rfl),
    (c6_register_webhook_validation parseUrlEx emptyFirewall "ftp://x").2.1
      urlFtpEx rfl (by decide) (by decide),
    (c6_register_webhook_validation parseUrlEx emptyFirewall "not a url").1
      "relative URL without a base" rfl⟩

/-- C9: the upstream URI is the proxy URL's text with every trailing slash
stripped, concatenated with the request's path-and-query (defaulting to "/" when
absent); when that string parses the request goes upstream at exactly that URI,
and when it does not the gateway answers 400 without any backend request. -/
theorem c9_upstream_uri (parseUri : String → Bool) (p : String)
    (pq : Option String) :
    (parseUri (trimEndSlashes p ++ pq.getD "/") = true →
      proxyHttpRequest parseUri p pq =
        .backendRequest (trimEndSlashes p ++ pq.getD "/")) ∧
    (parseUri (trimEndSlashes p ++ pq.getD "/") = false →
      proxyHttpRequest parseUri p pq = .badRequest) := by
  constructor <;> intro h <;> simp [proxyHttpRequest, h]

/-- Witness for C9: the backend base with its trailing slash trimmed, joined to the
request's path-and-query; and a 400 when the target does not parse. -/
theorem c9_upstream_uri_witness :
    proxyHttpRequest (fun _ => true) "http://backend:9944/" (some "/rpc?x=1") =
      .backendRequest "http://backend:9944/rpc?x=1" ∧
    proxyHttpRequest (fun _ => false) "http://backend:9944/" none =
      .badRequest := by
  constructor
  · have h := (c9_upstream_uri (fun _ => true) "http://backend:9944/"
      (some "/rpc?x=1")).1 rfl
    rw [h]
    rfl
  · exact (c9_upstream_uri (fun _ => false) "http://backend:9944/" none).2 rfl

end SecureRpc
